import Mathlib

/-!
Verification of the GoalQuest goal-state engine: a shallow embedding of the
streak-transition rules, the goal store mutators, the load/decode path, the
photo-attach pipeline and the once-per-day notification check from
`src/src/App.tsx`, with the data model of `src/types` (the unnamed source
file).  Times, generated identifiers and the results of external effects
(JSON decoding, image resizing) are passed in as explicit parameters so that
every operation is a pure function of its inputs, exactly mirroring the
branch structure of the source.
-/

namespace GoalQuest

/-- A progress photo attached to a goal (`PhotoEntry` in `src/types`):
an identifier, an ISO date string, and the base64 image payload. -/
structure PhotoEntry where
  id : String
  date : String
  dataUrl : String
deriving DecidableEq, Repr

/-- A goal (`Goal` in `src/types`): identity, text fields, creation
timestamp, the current streak counter (a JavaScript number, modelled as an
integer), the calendar-day string of the last completion (or `none`), and
the ordered photo list. -/
structure Goal where
  id : String
  title : String
  description : String
  createdAt : String
  streak : Int
  lastCompletedDate : Option String
  photos : List PhotoEntry
deriving DecidableEq, Repr

/-- The per-goal body of `toggleGoal` (`App.tsx` lines 85-111): if the goal
was already completed today, uncheck it (clear the date, decrement the
streak but not below 0); otherwise complete it today, where the new streak
is `streak + 1` on a continuation from yesterday, `streak` on the
(defensive) re-check of today, and `1` otherwise. -/
def toggleGoalStep (goal : Goal) (today yesterday : String) : Goal :=
  if goal.lastCompletedDate = some today then
    { goal with
        lastCompletedDate := none
        streak := max 0 (goal.streak - 1) }
  else
    let newStreak : Int :=
      if goal.lastCompletedDate = some yesterday then goal.streak + 1
      else if goal.lastCompletedDate = some today then goal.streak
      else 1
    { goal with
        lastCompletedDate := some today
        streak := newStreak }

/-- `toggleGoal` (`App.tsx` lines 77-113): map over the collection, leaving
every goal whose id differs untouched and applying the streak transition to
the matching one.  `today` and `yesterday` are the host calendar days,
passed as parameters. -/
def toggleGoal (goals : List Goal) (id today yesterday : String) : List Goal :=
  goals.map fun goal =>
    if goal.id ≠ id then goal
    else toggleGoalStep goal today yesterday

/-- `addGoal` (`App.tsx` lines 58-69): build a fresh goal with streak 0, no
completion date and no photos, and prepend it.  The generated UUID and the
current timestamp are parameters. -/
def addGoal (goals : List Goal) (title description id createdAt : String) :
    List Goal :=
  { id := id
    title := title
    description := description
    createdAt := createdAt
    streak := 0
    lastCompletedDate := none
    photos := [] } :: goals

/-- The load path (`App.tsx` lines 17-27): the collection starts empty; when
a persisted value exists its decode outcome (`JSON.parse` succeeding with a
collection, or throwing) is the `Except` argument.  A decode failure is
logged and otherwise ignored, leaving the empty collection. -/
def loadGoals (saved : Option (Except String (List Goal))) : List Goal :=
  match saved with
  | none => []
  | some (Except.ok goals) => goals
  | some (Except.error _) => []

/-- The reminder text built at `App.tsx` line 52 from the chosen goal. -/
def reminderMessage (title : String) : String :=
  "Don\x27t forget " ++ title ++ "! Keep your streak alive 🔥"

/-- The scan predicate at `App.tsx` line 49: a goal whose completion date
differs from today (`g.lastCompletedDate !== today`). -/
def notCompletedToday (today : String) (g : Goal) : Bool :=
  g.lastCompletedDate != some today

/-- The notification check (`App.tsx` lines 41-56): given the collection,
today, and the persisted last-notified day, return the emitted reminder (if
any) and the new last-notified marker.  It fires only when the marker is
not today and the collection is non-empty, on the first goal not completed
today; firing persists the marker. -/
def checkAndNotify (goals : List Goal) (today : String)
    (lastNotified : Option String) : Option String × Option String :=
  if lastNotified ≠ some today ∧ 0 < goals.length then
    match goals.find? (notCompletedToday today) with
    | some g => (some (reminderMessage g.title), some today)
    | none => (none, lastNotified)
  else
    (none, lastNotified)

/-- `addPhoto` (`App.tsx` lines 115-137): the resize outcome is the `Except`
argument (`resizeImage` resolving with a base64 payload, or rejecting).  On
failure the collection is returned unchanged (the error is reported); on
success a single new entry, whose id and capture date are parameters, is
appended to the matching goal's photo list. -/
def addPhoto (goals : List Goal) (id : String)
    (resized : Except String String) (photoId photoDate : String) :
    List Goal :=
  match resized with
  | Except.error _ => goals
  | Except.ok dataUrl =>
      goals.map fun goal =>
        if goal.id ≠ id then goal
        else
          { goal with
              photos := goal.photos ++
                [{ id := photoId, date := photoDate, dataUrl := dataUrl }] }

/-- The two-rule streak policy exactly as §4.2 of the spec words it
(uncheck when completed today, else complete today with continuation from
yesterday or reset to 1), written for comparison with `toggleGoalStep`. -/
def specPolicyToggle (goal : Goal) (today yesterday : String) : Goal :=
  if goal.lastCompletedDate = some today then
    { goal with
        lastCompletedDate := none
        streak := max 0 (goal.streak - 1) }
  else
    { goal with
        lastCompletedDate := some today
        streak :=
          if goal.lastCompletedDate = some yesterday then goal.streak + 1
          else 1 }

/-- C1: for every goal and every today/yesterday pair, the per-goal toggle
follows the two-rule policy: completed today means uncheck, with the date
cleared and the streak floored at 0 after the decrement; otherwise the date
becomes today and the streak is `streak + 1` on a continuation from
yesterday, else 1. -/
theorem toggleGoalStep_policy (goal : Goal) (today yesterday : String) :
    (goal.lastCompletedDate = some today →
      (toggleGoalStep goal today yesterday).lastCompletedDate = none ∧
      (toggleGoalStep goal today yesterday).streak =
        max 0 (goal.streak - 1)) ∧
    (goal.lastCompletedDate ≠ some today →
      (toggleGoalStep goal today yesterday).lastCompletedDate = some today ∧
      (toggleGoalStep goal today yesterday).streak =
        (if goal.lastCompletedDate = some yesterday then goal.streak + 1
         else 1)) := by
  constructor
  · intro h
    simp [toggleGoalStep, h]
  · intro h
    by_cases hy : goal.lastCompletedDate = some yesterday
    · have hyt : yesterday ≠ today := fun e => h (hy.trans (by rw [e]))
      simp [toggleGoalStep, h, hy, hyt]
    · simp [toggleGoalStep, h, hy]

/-- C10: the middle case of the completing branch, which re-checks
`lastCompletedDate === today`, is unreachable (that equality was already
handled by the uncheck branch), so the per-goal transition is extensionally
equal to the plain two-rule policy of §4.2 with that case deleted. -/
theorem toggleGoalStep_eq_specPolicy (goal : Goal) (today yesterday : String) :
    toggleGoalStep goal today yesterday = specPolicyToggle goal today yesterday := by
  by_cases h : goal.lastCompletedDate = some today
  · simp [toggleGoalStep, specPolicyToggle, h]
  · simp [toggleGoalStep, specPolicyToggle, h]

/-- C2 counterexample: a goal holding a negative streak (-2) and completed
yesterday gets streak -1 from the continuation branch, so the toggle result
is not non-negative for arbitrary prior values. -/
theorem toggleGoalStep_streak_nonneg_cex :
    ¬ (0 ≤ (toggleGoalStep
        { id := "g1", title := "Read", description := "", createdAt := "2024-01-01",
          streak := -2, lastCompletedDate := some "2024-01-01", photos := [] }
        "2024-01-02" "2024-01-01").streak) := by decide

/-- C2 (amended): whenever the prior streak is non-negative, the streak
after a toggle is non-negative — `streak ≥ 0` is preserved by every toggle
call from any state already satisfying it. -/
theorem toggleGoalStep_streak_nonneg (goal : Goal) (today yesterday : String)
    (h : 0 ≤ goal.streak) : 0 ≤ (toggleGoalStep goal today yesterday).streak := by
  by_cases h1 : goal.lastCompletedDate = some today
  · simp [toggleGoalStep, h1]
  · by_cases h2 : goal.lastCompletedDate = some yesterday
    · have hyt : yesterday ≠ today := fun e => h1 (h2.trans (by rw [e]))
      simp [toggleGoalStep, h1, h2, hyt]
      omega
    · simp [toggleGoalStep, h1, h2]

/-- C2 witness: the preservation theorem applied to a concrete goal with
streak 5. -/
theorem toggleGoalStep_streak_nonneg_witness :
    0 ≤ (toggleGoalStep
        { id := "g1", title := "Read", description := "", createdAt := "2024-01-01",
          streak := 5, lastCompletedDate := some "2024-01-01", photos := [] }
        "2024-01-02" "2024-01-01").streak :=
  toggleGoalStep_streak_nonneg _ _ _ (by decide)

/-- C3 counterexample: a goal with streak 5 completed yesterday
("2024-01-01", with today "2024-01-02") is not completed today, yet
toggling twice leaves `lastCompletedDate` absent instead of restoring
"2024-01-01": the round trip does not restore `lastCompletedDate`. -/
theorem toggle_twice_cex :
    (Goal.lastCompletedDate
        { id := "g1", title := "Read", description := "", createdAt := "2024-01-01",
          streak := 5, lastCompletedDate := some "2024-01-01", photos := [] } ≠
      some "2024-01-02") ∧
    (toggleGoalStep (toggleGoalStep
        { id := "g1", title := "Read", description := "", createdAt := "2024-01-01",
          streak := 5, lastCompletedDate := some "2024-01-01", photos := [] }
        "2024-01-02" "2024-01-01") "2024-01-02" "2024-01-01").lastCompletedDate ≠
      Goal.lastCompletedDate
        { id := "g1", title := "Read", description := "", createdAt := "2024-01-01",
          streak := 5, lastCompletedDate := some "2024-01-01", photos := [] } := by
  constructor
  · decide
  · decide

/-- C3 (amended): toggling twice on the same day, on a goal not completed
today, always yields `lastCompletedDate` absent and streak
`max 0 streak` when the prior completion was yesterday, else 0; hence the
round trip restores the goal exactly when its `lastCompletedDate` was
absent and its streak was 0. -/
theorem toggle_twice_characterization (goal : Goal) (today yesterday : String)
    (h : goal.lastCompletedDate ≠ some today) :
    (toggleGoalStep (toggleGoalStep goal today yesterday) today
        yesterday).lastCompletedDate = none ∧
    (toggleGoalStep (toggleGoalStep goal today yesterday) today
        yesterday).streak =
      (if goal.lastCompletedDate = some yesterday then max 0 goal.streak
       else 0) := by
  by_cases h2 : goal.lastCompletedDate = some yesterday
  · have hyt : yesterday ≠ today := fun e => h (h2.trans (by rw [e]))
    simp [toggleGoalStep, h, h2, hyt]
  · simp [toggleGoalStep, h, h2]

/-- C3 witness: the characterization applied to a concrete goal with
streak 5 completed yesterday. -/
theorem toggle_twice_characterization_witness :
    (toggleGoalStep (toggleGoalStep
        { id := "g1", title := "Read", description := "", createdAt := "2024-01-01",
          streak := 5, lastCompletedDate := some "2024-01-01", photos := [] }
        "2024-01-02" "2024-01-01") "2024-01-02" "2024-01-01").lastCompletedDate =
      none ∧
    (toggleGoalStep (toggleGoalStep
        { id := "g1", title := "Read", description := "", createdAt := "2024-01-01",
          streak := 5, lastCompletedDate := some "2024-01-01", photos := [] }
        "2024-01-02" "2024-01-01") "2024-01-02" "2024-01-01").streak =
      (if (some "2024-01-01" : Option String) = some "2024-01-01" then
        max 0 (5 : Int) else 0) :=
  toggle_twice_characterization _ "2024-01-02" "2024-01-01" (by decide)

/-- C6: `addGoal` prepends a fresh goal with the given title, description,
generated id and timestamp, streak 0, no completion date and no photos, and
leaves the prior collection unchanged behind it. -/
theorem addGoal_prepends (goals : List Goal)
    (title description id createdAt : String) :
    ∃ g : Goal, addGoal goals title description id createdAt = g :: goals ∧
      g.id = id ∧ g.title = title ∧ g.description = description ∧
      g.createdAt = createdAt ∧ g.streak = 0 ∧ g.lastCompletedDate = none ∧
      g.photos = [] :=
  ⟨_, rfl, rfl, rfl, rfl, rfl, rfl, rfl, rfl⟩

/-- C7: loading a persisted value that fails to decode yields the empty
collection (the failure is reported and otherwise ignored — `loadGoals` is
total, so it never aborts), loading a successfully decoded value yields the
decoded collection as-is, and absent prior data also yields the empty
collection. -/
theorem loadGoals_decode (e : String) (goals : List Goal) :
    loadGoals (some (Except.error e)) = [] ∧
    loadGoals (some (Except.ok goals)) = goals ∧
    loadGoals none = [] :=
  ⟨rfl, rfl, rfl⟩

/-- C4: the notification check fires at most once per calendar day: with the
marker already set to today nothing fires and the marker is unchanged, and a
second call on the same day, fed the marker produced by the first call,
never fires (the first firing persisted `lastNotifiedDay = today`). -/
theorem checkAndNotify_once_per_day (goals : List Goal) (today : String)
    (lastNotified : Option String) :
    checkAndNotify goals today (some today) = (none, some today) ∧
    (checkAndNotify goals today
        (checkAndNotify goals today lastNotified).2).1 = none := by
  constructor
  · simp [checkAndNotify]
  · by_cases hc : lastNotified ≠ some today ∧ 0 < goals.length
    · rcases hfind : goals.find? (notCompletedToday today) with _ | g
      · simp [checkAndNotify, hc, hfind]
      · simp [checkAndNotify, hc, hfind]
    · simp [checkAndNotify, hc]

/-- Finding the element after a prefix on which the predicate fails. -/
theorem find?_append_first {α : Type} (p : α → Bool) (l1 : List α) (g : α)
    (l2 : List α) (hall : ∀ x ∈ l1, p x = false) (hg : p g = true) :
    (l1 ++ g :: l2).find? p = some g := by
  induction l1 with
  | nil => simpa using List.find?_cons_of_pos _ hg
  | cons a l ih =>
      have ha : ¬ p a = true := by
        simp [hall a (by simp)]
      rw [List.cons_append, List.find?_cons_of_neg _ ha]
      exact ih fun x hx => hall x (by simp [hx])

/-- C5: when the marker is not today and the collection is non-empty, the
check selects the first goal in collection order not completed today, emits
the reminder built from its title and sets the marker to today; when every
goal is completed today, nothing fires and the marker is unchanged. -/
theorem checkAndNotify_fires (goals : List Goal) (today : String)
    (lastNotified : Option String) (h1 : lastNotified ≠ some today)
    (h2 : goals ≠ []) :
    (∀ l1 g l2, goals = l1 ++ g :: l2 →
        (∀ x ∈ l1, x.lastCompletedDate = some today) →
        g.lastCompletedDate ≠ some today →
        checkAndNotify goals today lastNotified =
          (some (reminderMessage g.title), some today)) ∧
    ((∀ g ∈ goals, g.lastCompletedDate = some today) →
        checkAndNotify goals today lastNotified = (none, lastNotified)) := by
  have hlen : 0 < goals.length := List.length_pos.mpr h2
  constructor
  · intro l1 g l2 hsplit hpre hg
    have hfind : goals.find? (notCompletedToday today) = some g := by
      rw [hsplit]
      refine find?_append_first _ l1 g l2 (fun x hx => ?_)
        (by simp [notCompletedToday, hg])
      simp [notCompletedToday, hpre x hx]
    simp [checkAndNotify, h1, hlen, hfind]
  · intro hall
    have hfind : goals.find? (notCompletedToday today) = none := by
      rw [List.find?_eq_none]
      intro x hx
      simp [notCompletedToday, hall x hx]
    simp [checkAndNotify, h1, hlen, hfind]

/-- C5 witness: with the marker unset, two goals of which the first is
completed today, the check fires on the second goal and sets the marker. -/
theorem checkAndNotify_fires_witness :
    checkAndNotify
      [{ id := "a", title := "Run", description := "", createdAt := "2024-01-01",
         streak := 1, lastCompletedDate := some "2024-01-02", photos := [] },
       { id := "b", title := "Read", description := "", createdAt := "2024-01-01",
         streak := 0, lastCompletedDate := none, photos := [] }]
      "2024-01-02" none =
      (some (reminderMessage "Read"), some "2024-01-02") :=
  (checkAndNotify_fires
      [{ id := "a", title := "Run", description := "", createdAt := "2024-01-01",
         streak := 1, lastCompletedDate := some "2024-01-02", photos := [] },
       { id := "b", title := "Read", description := "", createdAt := "2024-01-01",
         streak := 0, lastCompletedDate := none, photos := [] }]
      "2024-01-02" none (by decide) (by decide)).1
    [{ id := "a", title := "Run", description := "", createdAt := "2024-01-01",
       streak := 1, lastCompletedDate := some "2024-01-02", photos := [] }]
    { id := "b", title := "Read", description := "", createdAt := "2024-01-01",
      streak := 0, lastCompletedDate := none, photos := [] }
    [] rfl (by decide) (by decide)

/-- C8: `addPhoto` is atomic: a resize failure returns the collection
exactly as it was (the error is only reported), and a successful resize maps
each slot to itself except the matching goal, whose photo list becomes its
old list with exactly one new entry appended at the end, all prior entries
preserved in order. -/
theorem addPhoto_atomic (goals : List Goal) (id photoId photoDate : String) :
    (∀ (e : String), addPhoto goals id (Except.error e) photoId photoDate = goals) ∧
    (∀ (dataUrl : String),
      (addPhoto goals id (Except.ok dataUrl) photoId photoDate).length =
        goals.length ∧
      ∀ (k : Nat),
        (addPhoto goals id (Except.ok dataUrl) photoId photoDate)[k]? =
        (goals[k]?).map fun g =>
          if g.id ≠ id then g
          else { g with photos := g.photos ++
                  [{ id := photoId, date := photoDate, dataUrl := dataUrl }] }) := by
  refine ⟨fun e => rfl, fun dataUrl => ⟨List.length_map _ _, fun k => ?_⟩⟩
  exact List.getElem?_map _ goals k

/-- C9: `toggleGoal` has a tight frame: the collection keeps its length,
every slot holding a goal with a different id is unchanged, the slot holding
the matching goal keeps its id, title, description, creation timestamp and
photos (only streak and completion date may change), and when no goal has
the given id the whole collection is unchanged. -/
theorem toggleGoal_frame (goals : List Goal) (id today yesterday : String) :
    (toggleGoal goals id today yesterday).length = goals.length ∧
    (∀ (k : Nat) (g : Goal), goals[k]? = some g → g.id ≠ id →
        (toggleGoal goals id today yesterday)[k]? = some g) ∧
    (∀ (k : Nat) (g g2 : Goal), goals[k]? = some g →
        (toggleGoal goals id today yesterday)[k]? = some g2 →
        g2.id = g.id ∧ g2.title = g.title ∧ g2.description = g.description ∧
        g2.createdAt = g.createdAt ∧ g2.photos = g.photos) ∧
    ((∀ g ∈ goals, g.id ≠ id) → toggleGoal goals id today yesterday = goals) := by
  refine ⟨List.length_map _ _, fun k g hk hne => ?_, fun k g g2 hk hk2 => ?_,
    fun hall => ?_⟩
  · rw [toggleGoal, List.getElem?_map, hk]
    simp [hne]
  · rw [toggleGoal, List.getElem?_map, hk] at hk2
    have hg2 : g2 = if g.id ≠ id then g else toggleGoalStep g today yesterday := by
      simpa using hk2.symm
    subst hg2
    by_cases hne : g.id ≠ id
    · simp [hne]
    · by_cases ht : g.lastCompletedDate = some today
      · simp [hne, toggleGoalStep, ht]
      · simp [hne, toggleGoalStep, ht]
  · have hcong : ∀ g ∈ goals,
        (if g.id ≠ id then g else toggleGoalStep g today yesterday) = g :=
      fun g hg => if_pos (hall g hg)
    rw [toggleGoal, List.map_congr_left hcong]
    simp

end GoalQuest
